import Mathlib

/-!
A shallow embedding of the Ira hierarchical storage layer (the
`internal/storage` package: session store, window store, pane store) over a
model of the embedded BoltDB key-value engine, together with proofs about
the storage operations.

Modelling conventions:

* UUIDs are modelled by their canonical textual rendering (`uuid.String()`),
  which is exactly the form the code uses as a key; `uuid.ParseBytes` of a
  stored lookup value is modelled as reading the stored identifier string.
* Each `time.Now()` call is modelled by its own caller-supplied instant,
  passed as an extra argument in source order: operations whose record
  literal reads the clock twice (`NewSession`, `NewWindow`, `NewPane`) take
  two instants `nowC nowU`, the single-read updates take one `now`.  The
  code gives no guarantee that two reads coincide.
* Random generation (`uuid.NewRandom`, `uuid.New`, `nanoid.Generate`) is
  modelled by caller-supplied values, passed as extra leading arguments.
* A BoltDB write transaction is `Option Txn`: `none` models a nil
  `*bbolt.Tx`.  A `Txn` carries the live view `db` (reads and writes go
  through it; committing makes it the new store) and the committed
  snapshot `snap` as of transaction start.  `Bucket.Stats` walks the
  bucket's committed pages — uncommitted puts live in in-memory nodes and
  a bucket created within the transaction has no committed pages — so
  `Stats().KeyN` is computed from `snap`, while `Get`/`Put`/`ForEach` use
  the live view.  A mutating operation returns the transaction state as
  mutated so far even when it returns an error, exactly as the Go code
  leaves the transaction.
* Record values are modelled as tagged values (`Val`); `json.Marshal` is
  the tag constructor and `json.Unmarshal` reads the tag, failing with a
  serialization error on a mismatched shape.
* Bucket semantics follow bbolt's documented interface: `Get` returns nil
  for a missing key and for a nested-bucket key; `Put` and `Delete` on a
  nested-bucket key fail with `ErrIncompatibleValue`;
  `CreateBucketIfNotExists` fails with `ErrIncompatibleValue` on a plain
  value key; `DeleteBucket` fails with `ErrBucketNotFound` when the bucket
  is absent; `ForEach` visits keys in a fixed order, presenting a nil value
  for nested buckets.  The engine iterates in byte order of the keys; the
  model keeps entries in insertion order instead, which is sound here
  because no verified property depends on the iteration order (the spec
  leaves the listing order unspecified).
-/

namespace Ira

/-- Session lifecycle status, from `internal/enums`. -/
inductive SessionStatus where
  | Active
  | Inactive
  | Terminated
deriving DecidableEq, Repr

/-- `SessionEntry` record, keyed by the session UUID. -/
structure SessionEntry where
  ID : String
  Name : String
  Status : SessionStatus
  CreatedAt : Nat
  UpdatedAt : Nat
deriving DecidableEq, Repr

/-- `WindowEntry` record, keyed by the window UUID inside its session's
sub-bucket of WINDOW. -/
structure WindowEntry where
  ID : String
  Name : String
  Index : Nat
  SessionID : String
  CreatedAt : Nat
  UpdatedAt : Nat
deriving DecidableEq, Repr

/-- `PaneEntry` record, keyed by the pane UUID inside its window's
sub-bucket of PANE.  The field `SsessionID` keeps the source's spelling. -/
structure PaneEntry where
  ID : String
  SsessionID : String
  WindowID : String
  Width : Int
  Height : Int
  X : Int
  Y : Int
  Cwd : String
  CreatedAt : Nat
  UpdatedAt : Nat
deriving DecidableEq, Repr

/-- The error values of the storage package, plus the two bbolt engine
errors the package lets escape (`bbolt.ErrBucketNotFound` from
`DeleteBucket`, `bbolt.ErrIncompatibleValue` from bucket/value key
clashes) and a stand-in for a `json` decode failure. -/
inductive Err where
  | ErrEmptySessionName
  | ErrInvalidSessionName
  | ErrSessionAlreadyExists
  | ErrSessionNotFound
  | ErrTxnNotFound
  | ErrSessionBucketNotFound
  | ErrLookupBucketNotFound
  | ErrWindowNotFound
  | ErrWindowBucketNotFound
  | ErrWindowSessionBucketNotFound
  | ErrPaneNotFound
  | ErrPaneBucketNotFound
  | ErrPaneWindowBucketNotFound
  | ErrBboltBucketNotFound
  | ErrBboltIncompatibleValue
  | ErrSerialization
deriving DecidableEq, Repr

deriving instance DecidableEq for Except

/-- A stored value: the JSON encoding of one of the three record types, or
a raw identifier string (the values of the name-lookup bucket). -/
inductive Val where
  | vSess (e : SessionEntry)
  | vWin (e : WindowEntry)
  | vPane (e : PaneEntry)
  | vId (s : String)
deriving DecidableEq, Repr

/-- An entry of a top-level bucket: a plain value or a nested bucket.
The program nests buckets at most one level deep, and nested buckets hold
only plain values. -/
inductive Elem where
  | data (v : Val)
  | sub (b : List (String × Val))
deriving DecidableEq, Repr

/-- A nested (leaf) bucket: keys mapped to plain values. -/
abbrev Leaf := List (String × Val)

/-- A top-level bucket: keys mapped to plain values or nested buckets. -/
abbrev TopBucket := List (String × Elem)

/-- The whole committed store: the top-level buckets by name. -/
abbrev DB := List (String × TopBucket)

/-- A live BoltDB write transaction: `snap` is the committed store at
transaction start (the pages `Bucket.Stats` walks); `db` is the live view
that reads and writes go through and that a commit would persist. -/
structure Txn where
  snap : DB
  db : DB
deriving DecidableEq, Repr

/-- Look a key up in an association list. -/
def assocGet {α : Type} (k : String) : List (String × α) → Option α
  | [] => none
  | (k', v) :: rest => if k = k' then some v else assocGet k rest

/-- Insert or replace a key in an association list (replace in place,
append new keys at the end). -/
def assocPut {α : Type} (k : String) (v : α) : List (String × α) → List (String × α)
  | [] => [(k, v)]
  | (k', v') :: rest =>
    if k = k' then (k, v) :: rest
    else (k', v') :: assocPut k v rest

/-- Remove a key from an association list; removing an absent key is a
no-op, as in bbolt. -/
def assocDel {α : Type} (k : String) : List (String × α) → List (String × α)
  | [] => []
  | (k', v') :: rest => if k = k' then rest else (k', v') :: assocDel k rest

/-- `Bucket.Get`: nil for an absent key and for a nested-bucket key. -/
def tGet (b : TopBucket) (k : String) : Option Val :=
  match assocGet k b with
  | some (.data v) => some v
  | _ => none

/-- `Bucket.Put`: fails with `ErrIncompatibleValue` on a nested-bucket key. -/
def tPut (b : TopBucket) (k : String) (v : Val) : Except Err TopBucket :=
  match assocGet k b with
  | some (.sub _) => .error .ErrBboltIncompatibleValue
  | _ => .ok (assocPut k (.data v) b)

/-- `Bucket.Delete`: fails with `ErrIncompatibleValue` on a nested-bucket
key; deleting an absent key succeeds. -/
def tDel (b : TopBucket) (k : String) : Except Err TopBucket :=
  match assocGet k b with
  | some (.sub _) => .error .ErrBboltIncompatibleValue
  | _ => .ok (assocDel k b)

/-- `Bucket.Bucket`: the nested bucket under `k`, or nil if absent or a
plain value. -/
def tSub (b : TopBucket) (k : String) : Option Leaf :=
  match assocGet k b with
  | some (.sub l) => some l
  | _ => none

/-- `Bucket.CreateBucketIfNotExists`: returns the (possibly new) nested
bucket, failing with `ErrIncompatibleValue` on a plain value key. -/
def tEnsureSub (b : TopBucket) (k : String) : Except Err (TopBucket × Leaf) :=
  match assocGet k b with
  | some (.sub l) => .ok (b, l)
  | some (.data _) => .error .ErrBboltIncompatibleValue
  | none => .ok (assocPut k (.sub []) b, [])

/-- Write a nested bucket back under its key (the live-handle view of a
mutated nested bucket). -/
def tSetSub (b : TopBucket) (k : String) (l : Leaf) : TopBucket :=
  assocPut k (.sub l) b

/-- `Bucket.DeleteBucket`: fails with `ErrBucketNotFound` when the nested
bucket is absent and with `ErrIncompatibleValue` on a plain value key. -/
def tDeleteBucket (b : TopBucket) (k : String) : Except Err TopBucket :=
  match assocGet k b with
  | some (.sub _) => .ok (assocDel k b)
  | some (.data _) => .error .ErrBboltIncompatibleValue
  | none => .error .ErrBboltBucketNotFound

/-- `Tx.Bucket` at the transaction root. -/
def dbGet (db : DB) (k : String) : Option TopBucket := assocGet k db

/-- Write a top-level bucket back under its name. -/
def dbSet (db : DB) (k : String) (b : TopBucket) : DB := assocPut k b db

/-- `Tx.CreateBucketIfNotExists` at the transaction root (the root holds
only buckets, so this cannot fail). -/
def dbEnsure (db : DB) (k : String) : DB × TopBucket :=
  match assocGet k db with
  | some b => (db, b)
  | none => (assocPut k ([] : TopBucket) db, [])

/-- `Stats().KeyN` of the nested bucket `top/<sub>`: bbolt computes bucket
stats by walking the bucket's committed pages — uncommitted puts live in
in-memory nodes and a bucket created within the current transaction has no
committed pages — so the count is read from the snapshot taken at
transaction start, 0 when the bucket has no committed entries. -/
def statsKeyN (snap : DB) (top sub : String) : Nat :=
  match dbGet snap top with
  | none => 0
  | some b =>
    match tSub b sub with
    | none => 0
    | some l => l.length

/-- `json.Unmarshal` into a `SessionEntry`. -/
def asSess : Val → Except Err SessionEntry
  | .vSess e => .ok e
  | _ => .error .ErrSerialization

/-- `json.Unmarshal` into a `WindowEntry`. -/
def asWin : Val → Except Err WindowEntry
  | .vWin e => .ok e
  | _ => .error .ErrSerialization

/-- `json.Unmarshal` into a `PaneEntry`. -/
def asPane : Val → Except Err PaneEntry
  | .vPane e => .ok e
  | _ => .error .ErrSerialization

/-- `uuid.ParseBytes` of a stored lookup value. -/
def parseId : Val → Except Err String
  | .vId s => .ok s
  | _ => .error .ErrSerialization

/-- Models `string(existing) == id.String()` for a fetched lookup value: a
record value renders as a JSON document, which is never a plain identifier
string. -/
def valIdEq (v : Val) (id : String) : Bool :=
  match v with
  | .vId s => s = id
  | _ => false

/-- `sessionBucketName`. -/
def sessionBucketName : String := "SESSION"

/-- `lookupBucketName`. -/
def lookupBucketName : String := "__session_lookup__"

/-- `windowBucketName`. -/
def windowBucketName : String := "WINDOW"

/-- `paneBucketName`. -/
def paneBucketName : String := "PANE"

/-- A character matched by the class `[A-Za-z_-]` of `namePattern`. -/
def isNameChar (c : Char) : Bool := c.isAlpha || c = '_' || c = '-'

/-- A character trimmed by `strings.TrimSpace` (Unicode white space; the
ASCII and Latin-1 cases are listed explicitly). -/
def isSpaceChar (c : Char) : Bool :=
  c = ' ' || c = '\t' || c = '\n' || c = '\r' || c = '\u000B' || c = '\u000C' ||
  c = '\u0085' || c = '\u00A0'

/-- `strings.TrimSpace`, implemented structurally on the character list. -/
def trimSpace (s : String) : String :=
  String.mk (((s.data.dropWhile isSpaceChar).reverse.dropWhile isSpaceChar).reverse)

/-- `validateName`: trim surrounding whitespace, reject empty, then match
the anchored pattern of 1 to 64 name characters. -/
def validateName (name : String) : Except Err String :=
  let name := trimSpace name
  if name = "" then .error .ErrEmptySessionName
  else if name.data.length ≤ 64 && name.data.all isNameChar then .ok name
  else .error .ErrInvalidSessionName

/-- `sessionWithNameExists`: resolve a name through the lookup bucket.
Go returns `(uuid.UUID{}, false, nil)` when the name is unindexed; the
zero UUID is modelled by the empty string (it is never read). -/
def sessionWithNameExists (tx : Option Txn) (name : String) : Except Err (String × Bool) :=
  match tx with
  | none => .error .ErrTxnNotFound
  | some ⟨_, db⟩ =>
    match validateName name with
    | .error e => .error e
    | .ok name =>
      match dbGet db sessionBucketName with
      | none => .error .ErrSessionBucketNotFound
      | some bucket =>
        match tSub bucket lookupBucketName with
        | none => .error .ErrLookupBucketNotFound
        | some lookupBucket =>
          match assocGet name lookupBucket with
          | none => .ok ("", false)
          | some v =>
            match parseId v with
            | .error e => .error e
            | .ok sid => .ok (sid, true)

/-- `GetSession`. -/
def GetSession (tx : Option Txn) (id : String) : Except Err SessionEntry :=
  match tx with
  | none => .error .ErrTxnNotFound
  | some ⟨_, db⟩ =>
    match dbGet db sessionBucketName with
    | none => .error .ErrSessionBucketNotFound
    | some bucket =>
      match tGet bucket id with
      | none => .error .ErrSessionNotFound
      | some v => asSess v

/-- `NewSession`.  `uid` models the value of `uuid.NewRandom`; `nowC` and
`nowU` the two `time.Now()` reads behind `CreatedAt` and `UpdatedAt`, in
source order. -/
def NewSession (uid : String) (nowC nowU : Nat) (tx : Option Txn) (name : String) :
    Except Err SessionEntry × Option Txn :=
  match tx with
  | none => (.error .ErrTxnNotFound, none)
  | some ⟨snap, db⟩ =>
    match validateName name with
    | .error e => (.error e, some ⟨snap, db⟩)
    | .ok name =>
      let (db, bucket) := dbEnsure db sessionBucketName
      match tEnsureSub bucket lookupBucketName with
      | .error e => (.error e, some ⟨snap, db⟩)
      | .ok (bucket, lookupBucket) =>
        let db := dbSet db sessionBucketName bucket
        match sessionWithNameExists (some ⟨snap, db⟩) name with
        | .error e => (.error e, some ⟨snap, db⟩)
        | .ok (_, true) => (.error .ErrSessionAlreadyExists, some ⟨snap, db⟩)
        | .ok (_, false) =>
          let session : SessionEntry :=
            { ID := uid, Name := name, Status := .Inactive,
              CreatedAt := nowC, UpdatedAt := nowU }
          match tPut bucket session.ID (.vSess session) with
          | .error e => (.error e, some ⟨snap, db⟩)
          | .ok bucket =>
            let bucket := tSetSub bucket lookupBucketName
              (assocPut session.Name (.vId session.ID) lookupBucket)
            (.ok session, some ⟨snap, dbSet db sessionBucketName bucket⟩)

/-- The ForEach body of `GetSessions`: decode plain values, skip
nested-bucket keys (their iteration value is nil). -/
def sessionsFold : TopBucket → Except Err (List SessionEntry)
  | [] => .ok []
  | (_, .sub _) :: rest => sessionsFold rest
  | (_, .data v) :: rest =>
    match asSess v with
    | .error e => .error e
    | .ok s =>
      match sessionsFold rest with
      | .error e => .error e
      | .ok l => .ok (s :: l)

/-- `GetSessions`. -/
def GetSessions (tx : Option Txn) : Except Err (List SessionEntry) :=
  match tx with
  | none => .error .ErrTxnNotFound
  | some ⟨_, db⟩ =>
    match dbGet db sessionBucketName with
    | none => .error .ErrSessionBucketNotFound
    | some bucket => sessionsFold bucket

/-- `UpdateSessionName` (one `time.Now()` read). -/
def UpdateSessionName (now : Nat) (tx : Option Txn) (id : String) (name : String) :
    Except Err Unit × Option Txn :=
  match tx with
  | none => (.error .ErrTxnNotFound, none)
  | some ⟨snap, db⟩ =>
    match validateName name with
    | .error e => (.error e, some ⟨snap, db⟩)
    | .ok name =>
      let (db, bucket) := dbEnsure db sessionBucketName
      match tEnsureSub bucket lookupBucketName with
      | .error e => (.error e, some ⟨snap, db⟩)
      | .ok (bucket, lookupBucket) =>
        let db := dbSet db sessionBucketName bucket
        if (match assocGet name lookupBucket with
            | some existing => !(valIdEq existing id)
            | none => false)
        then (.error .ErrSessionAlreadyExists, some ⟨snap, db⟩)
        else
          match tGet bucket id with
          | none => (.error .ErrSessionNotFound, some ⟨snap, db⟩)
          | some old =>
            match asSess old with
            | .error e => (.error e, some ⟨snap, db⟩)
            | .ok session =>
              let oldName := session.Name
              let session := { session with Name := name, UpdatedAt := now }
              match tPut bucket id (.vSess session) with
              | .error e => (.error e, some ⟨snap, db⟩)
              | .ok bucket =>
                let lookupBucket := assocPut session.Name (.vId session.ID) lookupBucket
                let lookupBucket := assocDel oldName lookupBucket
                let bucket := tSetSub bucket lookupBucketName lookupBucket
                (.ok (), some ⟨snap, dbSet db sessionBucketName bucket⟩)

/-- `UpdateSessionStatus` (one `time.Now()` read). -/
def UpdateSessionStatus (now : Nat) (tx : Option Txn) (id : String)
    (status : SessionStatus) : Except Err Unit × Option Txn :=
  match tx with
  | none => (.error .ErrTxnNotFound, none)
  | some ⟨snap, db⟩ =>
    let (db, bucket) := dbEnsure db sessionBucketName
    match tGet bucket id with
    | none => (.error .ErrSessionNotFound, some ⟨snap, db⟩)
    | some old =>
      match asSess old with
      | .error e => (.error e, some ⟨snap, db⟩)
      | .ok session =>
        let session := { session with Status := status, UpdatedAt := now }
        match tPut bucket id (.vSess session) with
        | .error e => (.error e, some ⟨snap, db⟩)
        | .ok bucket => (.ok (), some ⟨snap, dbSet db sessionBucketName bucket⟩)

/-- `GetWindow` (from `internal/storage/window.go`). -/
def GetWindow (tx : Option Txn) (sessionId windowId : String) : Except Err WindowEntry :=
  match tx with
  | none => .error .ErrTxnNotFound
  | some ⟨snap, db⟩ =>
    match GetSession (some ⟨snap, db⟩) sessionId with
    | .error e => .error e
    | .ok session =>
      match dbGet db windowBucketName with
      | none => .error .ErrWindowBucketNotFound
      | some bucket =>
        match tSub bucket session.ID with
        | none => .error .ErrWindowSessionBucketNotFound
        | some sessionBucket =>
          match assocGet windowId sessionBucket with
          | none => .error .ErrWindowNotFound
          | some v => asWin v

/-- `NewWindow`.  `wuid` models the value of `uuid.New`, `nameSuffix` the
8-character value of `nanoid.Generate`, `nowC`/`nowU` the two `time.Now()`
reads; the index is `sessionBucket.Stats().KeyN`, which bbolt computes
from the bucket's committed pages — the snapshot count, stale with respect
to puts made in the current transaction. -/
def NewWindow (wuid : String) (nameSuffix : String) (nowC nowU : Nat) (tx : Option Txn)
    (sessionId : String) : Except Err WindowEntry × Option Txn :=
  match tx with
  | none => (.error .ErrTxnNotFound, none)
  | some ⟨snap, db⟩ =>
    match GetSession (some ⟨snap, db⟩) sessionId with
    | .error e => (.error e, some ⟨snap, db⟩)
    | .ok session =>
      let (db, bucket) := dbEnsure db windowBucketName
      match tEnsureSub bucket session.ID with
      | .error e => (.error e, some ⟨snap, db⟩)
      | .ok (bucket, sessionBucket) =>
        let index := statsKeyN snap windowBucketName session.ID
        let name := "Window-" ++ nameSuffix
        let window : WindowEntry :=
          { ID := wuid, Name := name, Index := index, SessionID := session.ID,
            CreatedAt := nowC, UpdatedAt := nowU }
        let sessionBucket := assocPut window.ID (.vWin window) sessionBucket
        let bucket := tSetSub bucket session.ID sessionBucket
        (.ok window, some ⟨snap, dbSet db windowBucketName bucket⟩)

/-- The ForEach body of `GetWindows`: decode every value of the session's
window bucket. -/
def windowsFold : Leaf → Except Err (List WindowEntry)
  | [] => .ok []
  | (_, v) :: rest =>
    match asWin v with
    | .error e => .error e
    | .ok w =>
      match windowsFold rest with
      | .error e => .error e
      | .ok l => .ok (w :: l)

/-- `GetWindows`. -/
def GetWindows (tx : Option Txn) (sessionId : String) : Except Err (List WindowEntry) :=
  match tx with
  | none => .error .ErrTxnNotFound
  | some ⟨snap, db⟩ =>
    match GetSession (some ⟨snap, db⟩) sessionId with
    | .error e => .error e
    | .ok session =>
      match dbGet db windowBucketName with
      | none => .error .ErrWindowBucketNotFound
      | some bucket =>
        match tSub bucket session.ID with
        | none => .error .ErrWindowSessionBucketNotFound
        | some sessionBucket => windowsFold sessionBucket

/-- `DeleteWindow`: removes the single window record; panes are not
cascaded here. -/
def DeleteWindow (tx : Option Txn) (sessionId windowId : String) :
    Except Err Unit × Option Txn :=
  match tx with
  | none => (.error .ErrTxnNotFound, none)
  | some ⟨snap, db⟩ =>
    match GetSession (some ⟨snap, db⟩) sessionId with
    | .error e => (.error e, some ⟨snap, db⟩)
    | .ok session =>
      let (db, bucket) := dbEnsure db windowBucketName
      match tEnsureSub bucket session.ID with
      | .error e => (.error e, some ⟨snap, db⟩)
      | .ok (bucket, sessionBucket) =>
        let sessionBucket := assocDel windowId sessionBucket
        let bucket := tSetSub bucket session.ID sessionBucket
        (.ok (), some ⟨snap, dbSet db windowBucketName bucket⟩)

/-- `NewPane`.  `puid` models the value of `uuid.New`, `nowC`/`nowU` the
two `time.Now()` reads. -/
def NewPane (puid : String) (nowC nowU : Nat) (tx : Option Txn) (sessionId windowId : String)
    (width height x y : Int) (cwd : String) : Except Err PaneEntry × Option Txn :=
  match tx with
  | none => (.error .ErrTxnNotFound, none)
  | some ⟨snap, db⟩ =>
    match GetSession (some ⟨snap, db⟩) sessionId with
    | .error e => (.error e, some ⟨snap, db⟩)
    | .ok session =>
      match GetWindow (some ⟨snap, db⟩) sessionId windowId with
      | .error e => (.error e, some ⟨snap, db⟩)
      | .ok window =>
        let (db, bucket) := dbEnsure db paneBucketName
        match tEnsureSub bucket window.ID with
        | .error e => (.error e, some ⟨snap, db⟩)
        | .ok (bucket, windowBucket) =>
          let pane : PaneEntry :=
            { ID := puid, SsessionID := session.ID, WindowID := window.ID,
              Width := width, Height := height, X := x, Y := y, Cwd := cwd,
              CreatedAt := nowC, UpdatedAt := nowU }
          let windowBucket := assocPut pane.ID (.vPane pane) windowBucket
          let bucket := tSetSub bucket window.ID windowBucket
          (.ok pane, some ⟨snap, dbSet db paneBucketName bucket⟩)

/-- `GetPane`. -/
def GetPane (tx : Option Txn) (sessionId windowId id : String) : Except Err PaneEntry :=
  match tx with
  | none => .error .ErrTxnNotFound
  | some ⟨snap, db⟩ =>
    match GetWindow (some ⟨snap, db⟩) sessionId windowId with
    | .error e => .error e
    | .ok window =>
      match dbGet db paneBucketName with
      | none => .error .ErrPaneBucketNotFound
      | some bucket =>
        match tSub bucket window.ID with
        | none => .error .ErrPaneWindowBucketNotFound
        | some windowBucket =>
          match assocGet id windowBucket with
          | none => .error .ErrPaneNotFound
          | some v => asPane v

/-- The ForEach body of `GetPanes`: decode every value of the window's
pane bucket. -/
def panesFold : Leaf → Except Err (List PaneEntry)
  | [] => .ok []
  | (_, v) :: rest =>
    match asPane v with
    | .error e => .error e
    | .ok p =>
      match panesFold rest with
      | .error e => .error e
      | .ok l => .ok (p :: l)

/-- `GetPanes`. -/
def GetPanes (tx : Option Txn) (sessionId windowId : String) :
    Except Err (List PaneEntry) :=
  match tx with
  | none => .error .ErrTxnNotFound
  | some ⟨snap, db⟩ =>
    match GetWindow (some ⟨snap, db⟩) sessionId windowId with
    | .error e => .error e
    | .ok window =>
      match dbGet db paneBucketName with
      | none => .error .ErrPaneBucketNotFound
      | some bucket =>
        match tSub bucket window.ID with
        | none => .error .ErrPaneWindowBucketNotFound
        | some windowBucket => panesFold windowBucket

/-- `DeletePane`. -/
def DeletePane (tx : Option Txn) (sessionId windowId id : String) :
    Except Err Unit × Option Txn :=
  match tx with
  | none => (.error .ErrTxnNotFound, none)
  | some ⟨snap, db⟩ =>
    match GetWindow (some ⟨snap, db⟩) sessionId windowId with
    | .error e => (.error e, some ⟨snap, db⟩)
    | .ok window =>
      let (db, bucket) := dbEnsure db paneBucketName
      match tEnsureSub bucket window.ID with
      | .error e => (.error e, some ⟨snap, db⟩)
      | .ok (bucket, windowBucket) =>
        let windowBucket := assocDel id windowBucket
        let bucket := tSetSub bucket window.ID windowBucket
        (.ok (), some ⟨snap, dbSet db paneBucketName bucket⟩)

/-- `DeletePanes`: removes the window's whole pane bucket with
`DeleteBucket`, whose error is returned as is. -/
def DeletePanes (tx : Option Txn) (sessionId windowId : String) :
    Except Err Unit × Option Txn :=
  match tx with
  | none => (.error .ErrTxnNotFound, none)
  | some ⟨snap, db⟩ =>
    match GetWindow (some ⟨snap, db⟩) sessionId windowId with
    | .error e => (.error e, some ⟨snap, db⟩)
    | .ok window =>
      let (db, bucket) := dbEnsure db paneBucketName
      match tDeleteBucket bucket window.ID with
      | .error e => (.error e, some ⟨snap, db⟩)
      | .ok bucket => (.ok (), some ⟨snap, dbSet db paneBucketName bucket⟩)

/-- `UpdatePaneSize`: re-fetch, overwrite width/height and the update
timestamp (one `time.Now()` read), write back under the parameter keys. -/
def UpdatePaneSize (now : Nat) (tx : Option Txn) (sessionId windowId id : String)
    (width height : Int) : Except Err Unit × Option Txn :=
  match tx with
  | none => (.error .ErrTxnNotFound, none)
  | some ⟨snap, db⟩ =>
    match GetPane (some ⟨snap, db⟩) sessionId windowId id with
    | .error e => (.error e, some ⟨snap, db⟩)
    | .ok pane =>
      let (db, bucket) := dbEnsure db paneBucketName
      match tEnsureSub bucket windowId with
      | .error e => (.error e, some ⟨snap, db⟩)
      | .ok (bucket, windowBucket) =>
        let pane := { pane with Width := width, Height := height, UpdatedAt := now }
        let windowBucket := assocPut id (.vPane pane) windowBucket
        let bucket := tSetSub bucket windowId windowBucket
        (.ok (), some ⟨snap, dbSet db paneBucketName bucket⟩)

/-- `UpdatePanePosition` (one `time.Now()` read). -/
def UpdatePanePosition (now : Nat) (tx : Option Txn) (sessionId windowId id : String)
    (x y : Int) : Except Err Unit × Option Txn :=
  match tx with
  | none => (.error .ErrTxnNotFound, none)
  | some ⟨snap, db⟩ =>
    match GetPane (some ⟨snap, db⟩) sessionId windowId id with
    | .error e => (.error e, some ⟨snap, db⟩)
    | .ok pane =>
      let (db, bucket) := dbEnsure db paneBucketName
      match tEnsureSub bucket windowId with
      | .error e => (.error e, some ⟨snap, db⟩)
      | .ok (bucket, windowBucket) =>
        let pane := { pane with X := x, Y := y, UpdatedAt := now }
        let windowBucket := assocPut id (.vPane pane) windowBucket
        let bucket := tSetSub bucket windowId windowBucket
        (.ok (), some ⟨snap, dbSet db paneBucketName bucket⟩)

/-- `UpdatePaneCwd` (one `time.Now()` read). -/
def UpdatePaneCwd (now : Nat) (tx : Option Txn) (sessionId windowId id : String)
    (cwd : String) : Except Err Unit × Option Txn :=
  match tx with
  | none => (.error .ErrTxnNotFound, none)
  | some ⟨snap, db⟩ =>
    match GetPane (some ⟨snap, db⟩) sessionId windowId id with
    | .error e => (.error e, some ⟨snap, db⟩)
    | .ok pane =>
      let (db, bucket) := dbEnsure db paneBucketName
      match tEnsureSub bucket windowId with
      | .error e => (.error e, some ⟨snap, db⟩)
      | .ok (bucket, windowBucket) =>
        let pane := { pane with Cwd := cwd, UpdatedAt := now }
        let windowBucket := assocPut id (.vPane pane) windowBucket
        let bucket := tSetSub bucket windowId windowBucket
        (.ok (), some ⟨snap, dbSet db paneBucketName bucket⟩)

/-- The ForEach body of `DeleteWindows`: decode each window record and
cascade `DeletePanes` for it, threading the live view with the snapshot
fixed.  The `getD` fallbacks never fire: `DeletePanes` maps a live
transaction to a live transaction. -/
def deleteWindowPanes (snap : DB) (sessionId : String) :
    List (String × Val) → DB → Except Err Unit × DB
  | [], db => (.ok (), db)
  | (_, v) :: rest, db =>
    match asWin v with
    | .error e => (.error e, db)
    | .ok window =>
      match DeletePanes (some ⟨snap, db⟩) sessionId window.ID with
      | (.ok _, tx) => deleteWindowPanes snap sessionId rest ((tx.getD ⟨snap, db⟩).db)
      | (.error e, tx) => (.error e, (tx.getD ⟨snap, db⟩).db)

/-- `DeleteWindows`: the session-cascade path; per window, delete its
panes, then drop the session's whole window bucket. -/
def DeleteWindows (tx : Option Txn) (sessionId : String) : Except Err Unit × Option Txn :=
  match tx with
  | none => (.error .ErrTxnNotFound, none)
  | some ⟨snap, db⟩ =>
    match GetSession (some ⟨snap, db⟩) sessionId with
    | .error e => (.error e, some ⟨snap, db⟩)
    | .ok session =>
      let (db, bucket) := dbEnsure db windowBucketName
      match tEnsureSub bucket session.ID with
      | .error e => (.error e, some ⟨snap, db⟩)
      | .ok (bucket, sessionBucket) =>
        let db := dbSet db windowBucketName bucket
        match deleteWindowPanes snap sessionId sessionBucket db with
        | (.error e, db) => (.error e, some ⟨snap, db⟩)
        | (.ok _, db) =>
          let bucket := (dbGet db windowBucketName).getD []
          match tDeleteBucket bucket session.ID with
          | .error e => (.error e, some ⟨snap, db⟩)
          | .ok bucket => (.ok (), some ⟨snap, dbSet db windowBucketName bucket⟩)

/-- `DeleteSession`: cascade windows (and panes), then remove the primary
record and the name-index entry. -/
def DeleteSession (tx : Option Txn) (id : String) : Except Err Unit × Option Txn :=
  match tx with
  | none => (.error .ErrTxnNotFound, none)
  | some ⟨snap, db⟩ =>
    let (db, bucket) := dbEnsure db sessionBucketName
    match tEnsureSub bucket lookupBucketName with
    | .error e => (.error e, some ⟨snap, db⟩)
    | .ok (bucket, _) =>
      let db := dbSet db sessionBucketName bucket
      match GetSession (some ⟨snap, db⟩) id with
      | .error e => (.error e, some ⟨snap, db⟩)
      | .ok session =>
        match DeleteWindows (some ⟨snap, db⟩) session.ID with
        | (.error e, tx2) => (.error e, tx2)
        | (.ok _, tx2) =>
          let db := (tx2.getD ⟨snap, db⟩).db
          let bucket := (dbGet db sessionBucketName).getD []
          match tDel bucket session.ID with
          | .error e => (.error e, some ⟨snap, db⟩)
          | .ok bucket =>
            let lookupBucket := (tSub bucket lookupBucketName).getD []
            let bucket := tSetSub bucket lookupBucketName
              (assocDel session.Name lookupBucket)
            (.ok (), some ⟨snap, dbSet db sessionBucketName bucket⟩)

/-- Begin a write transaction on a committed store: the live view starts
out equal to the committed snapshot. -/
def beginTx (db : DB) : Txn := ⟨db, db⟩

/-- The committed store a transaction would leave behind (used to chain
the concrete test states, one transaction per operation — the discipline
the RPC layer uses). -/
def committed (tx : Option Txn) : DB := (tx.getD ⟨[], []⟩).db

/-- The plain (non-bucket) values of a bucket, in iteration order. -/
def dataVals (b : TopBucket) : List Val :=
  b.filterMap (fun p => match p.2 with | .data v => some v | .sub _ => none)

/-- Decode a list of values as session records, stopping at the first
decode failure. -/
def decodeSessions : List Val → Except Err (List SessionEntry)
  | [] => .ok []
  | v :: rest =>
    match asSess v with
    | .error e => .error e
    | .ok s =>
      match decodeSessions rest with
      | .error e => .error e
      | .ok l => .ok (s :: l)

/-- The validated name is not yet indexed: the SESSION bucket or the
lookup bucket may not exist yet (fresh store), and when the lookup bucket
exists it holds no entry for the name.  A plain value sitting at the
lookup bucket's key (a corrupt store) is excluded, since
`CreateBucketIfNotExists` would fail on it. -/
def nameFree (db : DB) (vname : String) : Bool :=
  match dbGet db sessionBucketName with
  | none => true
  | some sb =>
    match assocGet lookupBucketName sb with
    | none => true
    | some (.data _) => false
    | some (.sub lk) => (assocGet vname lk).isNone

/-- The generated identifier is fresh: distinct from the lookup bucket's
key and unused in the SESSION bucket. -/
def uidFresh (db : DB) (uid : String) : Bool :=
  (uid != lookupBucketName) &&
    (match dbGet db sessionBucketName with
     | none => true
     | some sb => (assocGet uid sb).isNone)

/-- A committed store holding one session `sid-a` named `work`. -/
def dbS : DB := committed (NewSession "sid-a" 0 0 (some (beginTx [])) "work").2

/-- `dbS` plus one window `wid-a` under `sid-a`, with no pane ever
created. -/
def dbSW : DB :=
  committed (NewWindow "wid-a" "abcdefgh" 1 1 (some (beginTx dbS)) "sid-a").2

/-- `dbSW` plus pane `pid-1`. -/
def dbP1 : DB :=
  committed (NewPane "pid-1" 2 2 (some (beginTx dbSW)) "sid-a" "wid-a" 80 24 0 0 "/tmp").2

/-- `dbP1` plus pane `pid-2`. -/
def dbP2 : DB :=
  committed (NewPane "pid-2" 2 2 (some (beginTx dbP1)) "sid-a" "wid-a" 80 24 1 0 "/tmp").2

/-- `dbP2` plus pane `pid-3`: session `sid-a` with window `wid-a` holding
panes `pid-1`, `pid-2`, `pid-3`. -/
def dbP3 : DB :=
  committed (NewPane "pid-3" 2 2 (some (beginTx dbP2)) "sid-a" "wid-a" 80 24 2 0 "/tmp").2

/-- `dbS` plus window `w1`, created and committed in its own
transaction. -/
def dbW1 : DB := committed (NewWindow "w1" "n1" 1 1 (some (beginTx dbS)) "sid-a").2

/-- `dbW1` plus window `w2`, created and committed in its own
transaction. -/
def dbW2 : DB := committed (NewWindow "w2" "n2" 2 2 (some (beginTx dbW1)) "sid-a").2

theorem assocGet_put_self {α : Type} (k : String) (v : α) (l : List (String × α)) :
    assocGet k (assocPut k v l) = some v := by
  induction l with
  | nil => simp [assocGet, assocPut]
  | cons hd tl ih =>
    obtain ⟨k', v'⟩ := hd
    by_cases h2 : k = k'
    · simp [assocPut, h2, assocGet]
    · simp [assocPut, h2, assocGet, ih]

theorem assocGet_put_ne {α : Type} {k k' : String} (v : α) (l : List (String × α))
    (h : k' ≠ k) : assocGet k' (assocPut k v l) = assocGet k' l := by
  induction l with
  | nil => simp [assocGet, assocPut, h]
  | cons hd tl ih =>
    obtain ⟨k2, v2⟩ := hd
    by_cases h2 : k = k2
    · subst h2
      simp [assocPut, assocGet, h]
    · simp [assocPut, h2, assocGet, ih]

theorem assocGet_del_ne {α : Type} {k k' : String} (l : List (String × α))
    (h : k' ≠ k) : assocGet k' (assocDel k l) = assocGet k' l := by
  induction l with
  | nil => rfl
  | cons hd tl ih =>
    obtain ⟨k2, v2⟩ := hd
    by_cases h2 : k = k2
    · subst h2
      simp [assocDel, assocGet, h]
    · simp [assocDel, h2, assocGet, ih]

theorem assocPut_get_self {α : Type} {k : String} {v : α} {l : List (String × α)}
    (h : assocGet k l = some v) : assocPut k v l = l := by
  induction l with
  | nil => cases h
  | cons hd tl ih =>
    obtain ⟨k2, v2⟩ := hd
    by_cases h2 : k = k2
    · subst h2
      simp only [assocGet, if_true, eq_self_iff_true, Option.some.injEq] at h
      subst h
      simp [assocPut]
    · simp only [assocGet, if_neg h2] at h
      simp [assocPut, h2, ih h]

theorem GetSession_congr (s1 s2 : DB) {db1 db2 : DB}
    (h : dbGet db1 sessionBucketName = dbGet db2 sessionBucketName) (id : String) :
    GetSession (some ⟨s1, db1⟩) id = GetSession (some ⟨s2, db2⟩) id := by
  simp only [GetSession, h]

theorem sessionWithNameExists_congr (s1 s2 : DB) {db1 db2 : DB}
    (h : dbGet db1 sessionBucketName = dbGet db2 sessionBucketName) (name : String) :
    sessionWithNameExists (some ⟨s1, db1⟩) name = sessionWithNameExists (some ⟨s2, db2⟩) name := by
  simp only [sessionWithNameExists, h]

theorem GetWindow_congr (s1 s2 : DB) {db1 db2 : DB}
    (hs : dbGet db1 sessionBucketName = dbGet db2 sessionBucketName)
    (hw : dbGet db1 windowBucketName = dbGet db2 windowBucketName)
    (sid wid : String) :
    GetWindow (some ⟨s1, db1⟩) sid wid = GetWindow (some ⟨s2, db2⟩) sid wid := by
  simp only [GetWindow, GetSession_congr s1 s2 hs, hw]

/-- Claim C7: every storage operation of the core, called with a nil
transaction, fails immediately with the dedicated `ErrTxnNotFound` error
and performs no writes (the pane updates inherit the check from their
initial `GetPane`). -/
theorem nil_transaction_uniform_error :
    (∀ uid nowC nowU name, NewSession uid nowC nowU none name = (.error .ErrTxnNotFound, none)) ∧
    (∀ id, GetSession none id = .error .ErrTxnNotFound) ∧
    (GetSessions none = .error .ErrTxnNotFound) ∧
    (∀ name, sessionWithNameExists none name = .error .ErrTxnNotFound) ∧
    (∀ now id name, UpdateSessionName now none id name = (.error .ErrTxnNotFound, none)) ∧
    (∀ now id st, UpdateSessionStatus now none id st = (.error .ErrTxnNotFound, none)) ∧
    (∀ id, DeleteSession none id = (.error .ErrTxnNotFound, none)) ∧
    (∀ wuid sfx nowC nowU sid, NewWindow wuid sfx nowC nowU none sid = (.error .ErrTxnNotFound, none)) ∧
    (∀ sid wid, GetWindow none sid wid = .error .ErrTxnNotFound) ∧
    (∀ sid, GetWindows none sid = .error .ErrTxnNotFound) ∧
    (∀ sid wid, DeleteWindow none sid wid = (.error .ErrTxnNotFound, none)) ∧
    (∀ sid, DeleteWindows none sid = (.error .ErrTxnNotFound, none)) ∧
    (∀ puid nowC nowU sid wid w h x y cwd,
      NewPane puid nowC nowU none sid wid w h x y cwd = (.error .ErrTxnNotFound, none)) ∧
    (∀ sid wid pid, GetPane none sid wid pid = .error .ErrTxnNotFound) ∧
    (∀ sid wid, GetPanes none sid wid = .error .ErrTxnNotFound) ∧
    (∀ sid wid pid, DeletePane none sid wid pid = (.error .ErrTxnNotFound, none)) ∧
    (∀ sid wid, DeletePanes none sid wid = (.error .ErrTxnNotFound, none)) ∧
    (∀ now sid wid pid w h, UpdatePaneSize now none sid wid pid w h = (.error .ErrTxnNotFound, none)) ∧
    (∀ now sid wid pid x y, UpdatePanePosition now none sid wid pid x y = (.error .ErrTxnNotFound, none)) ∧
    (∀ now sid wid pid cwd, UpdatePaneCwd now none sid wid pid cwd = (.error .ErrTxnNotFound, none)) := by
  refine ⟨?_, ?_, ?_, ?_, ?_, ?_, ?_, ?_, ?_, ?_, ?_, ?_, ?_, ?_, ?_, ?_, ?_, ?_, ?_, ?_⟩ <;>
    intros <;> rfl

/-- Claim C1 (code bug): deleting session `sid-a` whose window `wid-a`
holds panes `pid-1..pid-3` succeeds and leaves every subsequent lookup of
the session, the window and the panes failing; but deleting the same
session while its window has never had a pane created aborts with the
bbolt bucket-not-found error escaping from the pane cascade's
`DeleteBucket`, so the session is not deletable at all in that state. -/
theorem deleteSession_paneless_window_aborts :
    ((DeleteSession (some (beginTx dbP3)) "sid-a").1 = .ok () ∧
      GetSession (DeleteSession (some (beginTx dbP3)) "sid-a").2 "sid-a" =
        .error .ErrSessionNotFound ∧
      GetWindow (DeleteSession (some (beginTx dbP3)) "sid-a").2 "sid-a" "wid-a" =
        .error .ErrSessionNotFound ∧
      GetPane (DeleteSession (some (beginTx dbP3)) "sid-a").2 "sid-a" "wid-a" "pid-1" =
        .error .ErrSessionNotFound ∧
      GetPane (DeleteSession (some (beginTx dbP3)) "sid-a").2 "sid-a" "wid-a" "pid-2" =
        .error .ErrSessionNotFound ∧
      GetPane (DeleteSession (some (beginTx dbP3)) "sid-a").2 "sid-a" "wid-a" "pid-3" =
        .error .ErrSessionNotFound ∧
      sessionWithNameExists (DeleteSession (some (beginTx dbP3)) "sid-a").2 "work" =
        .ok ("", false)) ∧
    (DeleteSession (some (beginTx dbSW)) "sid-a").1 = .error .ErrBboltBucketNotFound := by
  decide

/-- Claim C2 (code bug): renaming session `sid-a` to its own current name
`work` succeeds and keeps the record's name, but removes the `work` entry
from the lookup index (the code puts and then deletes the same key), so
the name no longer resolves; renaming to a fresh name does move the index
entry correctly. -/
theorem updateSessionName_sameName_dropsLookup :
    ((UpdateSessionName 5 (some (beginTx dbS)) "sid-a" "work").1 = .ok () ∧
      GetSession (UpdateSessionName 5 (some (beginTx dbS)) "sid-a" "work").2 "sid-a" =
        .ok { ID := "sid-a", Name := "work", Status := .Inactive, CreatedAt := 0, UpdatedAt := 5 } ∧
      sessionWithNameExists (UpdateSessionName 5 (some (beginTx dbS)) "sid-a" "work").2 "work" =
        .ok ("", false)) ∧
    ((UpdateSessionName 5 (some (beginTx dbS)) "sid-a" "fresh").1 = .ok () ∧
      sessionWithNameExists (UpdateSessionName 5 (some (beginTx dbS)) "sid-a" "fresh").2 "fresh" =
        .ok ("sid-a", true) ∧
      sessionWithNameExists (UpdateSessionName 5 (some (beginTx dbS)) "sid-a" "fresh").2 "work" =
        .ok ("", false)) := by
  decide

/-- Claim C3 counterexample: `Stats().KeyN` is computed from the bucket's
committed pages, so when the second and third windows are created in the
same transaction as the first, each still sees the committed count of the
fresh session and receives index 0 — not the 1 and 2 the claim requires of
three creations inside one transaction. -/
theorem newWindow_oneTxn_stale_counterexample :
    (NewWindow "w2" "n2" 2 2
        (NewWindow "w1" "n1" 1 1 (some (beginTx dbS)) "sid-a").2
        "sid-a").1.map (fun w => w.Index) = .ok 0 ∧
    (NewWindow "w3" "n3" 3 3
        (NewWindow "w2" "n2" 2 2
          (NewWindow "w1" "n1" 1 1 (some (beginTx dbS)) "sid-a").2
          "sid-a").2
        "sid-a").1.map (fun w => w.Index) = .ok 0 ∧
    (Except.ok 0 : Except Err Nat) ≠ .ok 1 ∧
    (Except.ok 0 : Except Err Nat) ≠ .ok 2 := by
  decide

/-- Claim C3 (amended): a window created under an existing session
receives index `Stats().KeyN` of the session's window bucket — the number
of windows committed for that session at transaction start; creating three
windows in three successive transactions yields indices 0, 1 and 2, while
inside one transaction the count is stale (see the counterexample). -/
theorem newWindow_index_eq_committed_count :
    (∀ wuid sfx nowC nowU snap db sid w otx,
      NewWindow wuid sfx nowC nowU (some ⟨snap, db⟩) sid = (.ok w, otx) →
        w.Index = statsKeyN snap windowBucketName w.SessionID) ∧
    ((NewWindow "w1" "n1" 1 1 (some (beginTx dbS)) "sid-a").1.map (fun w => w.Index) = .ok 0 ∧
      (NewWindow "w2" "n2" 2 2 (some (beginTx dbW1)) "sid-a").1.map (fun w => w.Index) = .ok 1 ∧
      (NewWindow "w3" "n3" 3 3 (some (beginTx dbW2)) "sid-a").1.map (fun w => w.Index) = .ok 2) := by
  constructor
  · intro wuid sfx nowC nowU snap db sid w otx h
    cases hgs : GetSession (some ⟨snap, db⟩) sid with
    | error e =>
      simp only [NewWindow, hgs] at h
      simp at h
    | ok session =>
      cases hwb : assocGet windowBucketName db with
      | none =>
        simp only [NewWindow, dbEnsure, hgs, hwb, tEnsureSub, assocGet] at h
        simp only [Prod.mk.injEq, Except.ok.injEq] at h
        obtain ⟨hw, -⟩ := h
        subst hw
        rfl
      | some wb =>
        cases hsb : assocGet session.ID wb with
        | none =>
          simp only [NewWindow, dbEnsure, hgs, hwb, tEnsureSub, hsb] at h
          simp only [Prod.mk.injEq, Except.ok.injEq] at h
          obtain ⟨hw, -⟩ := h
          subst hw
          rfl
        | some el =>
          cases el with
          | data v =>
            simp only [NewWindow, dbEnsure, hgs, hwb, tEnsureSub, hsb] at h
            simp at h
          | sub l =>
            simp only [NewWindow, dbEnsure, hgs, hwb, tEnsureSub, hsb] at h
            simp only [Prod.mk.injEq, Except.ok.injEq] at h
            obtain ⟨hw, -⟩ := h
            subst hw
            rfl
  · exact ⟨by decide, by decide, by decide⟩

/-- Witness for `newWindow_index_eq_committed_count`: the first window
created under the committed session of `dbS` gets index
`statsKeyN dbS windowBucketName "sid-a" = 0`. -/
theorem newWindow_index_eq_committed_count_witness :
    ({ ID := "w1", Name := "Window-n1", Index := 0, SessionID := "sid-a",
       CreatedAt := 1, UpdatedAt := 1 } : WindowEntry).Index =
      statsKeyN dbS windowBucketName "sid-a" :=
  newWindow_index_eq_committed_count.1 "w1" "n1" 1 1 dbS dbS "sid-a"
    { ID := "w1", Name := "Window-n1", Index := 0, SessionID := "sid-a",
      CreatedAt := 1, UpdatedAt := 1 }
    (NewWindow "w1" "n1" 1 1 (some (beginTx dbS)) "sid-a").2 (by decide)

/-- Claim C10: `GetSessions` returns exactly the decoding of the plain
values stored under keys of the SESSION bucket, in iteration order; a
nested-bucket key (in particular `__session_lookup__`) is presented with a
nil value by the iteration and skipped, so no listing entry is ever
derived from the name index. -/
theorem getSessions_skips_lookup_bucket (snap db : DB) (sb : TopBucket)
    (h : dbGet db sessionBucketName = some sb) :
    GetSessions (some ⟨snap, db⟩) = decodeSessions (dataVals sb) := by
  have hfold : ∀ b : TopBucket, sessionsFold b = decodeSessions (dataVals b) := by
    intro b
    induction b with
    | nil => rfl
    | cons hd tl ih =>
      obtain ⟨k, el⟩ := hd
      cases el with
      | data v => simp [sessionsFold, dataVals, List.filterMap_cons, decodeSessions, ih]
      | sub l => simp [sessionsFold, dataVals, List.filterMap_cons, ih]
  simp only [GetSessions, h, hfold]

/-- Witness for `getSessions_skips_lookup_bucket` on the concrete store
`dbS`, whose SESSION bucket holds the lookup sub-bucket next to one
session record. -/
theorem getSessions_skips_lookup_bucket_witness :
    GetSessions (some (beginTx dbS)) =
      decodeSessions (dataVals ((dbGet dbS sessionBucketName).getD [])) :=
  getSessions_skips_lookup_bucket dbS dbS _ (by decide)

/-- Claim C4 counterexample: `CreatedAt` and `UpdatedAt` come from two
separate `time.Now()` reads with no equality guarantee; when the clock
advances between them the stored record carries distinct timestamps,
falsifying the claim's `createdAt = updatedAt` conjunct. -/
theorem newSession_twoClockReads_counterexample :
    GetSession (NewSession "sid-a" 0 1 (some (beginTx [])) "work").2 "sid-a" =
      .ok { ID := "sid-a", Name := "work", Status := .Inactive,
            CreatedAt := 0, UpdatedAt := 1 } ∧
    (0 : Nat) ≠ 1 := by
  decide

/-- Claim C4 (amended): creating a session with a valid name that is not
yet indexed succeeds — also in a fresh store with no SESSION or lookup
bucket yet — and a subsequent `GetSession` on the returned identifier
yields a record whose name is the validated (trimmed) name, whose status
is Inactive, and whose `CreatedAt`/`UpdatedAt` are the two clock instants
read at creation, in source order (equal exactly when the clock does not
advance between the reads).  `vname` is the validated form of the
requested name and the generated identifier is assumed fresh. -/
theorem newSession_roundtrip (uid : String) (nowC nowU : Nat) (name vname : String)
    (snap db : DB)
    (hval : validateName name = .ok vname)
    (hval2 : validateName vname = .ok vname)
    (hfree : nameFree db vname = true)
    (huid : uidFresh db uid = true) :
    (NewSession uid nowC nowU (some ⟨snap, db⟩) name).1 =
      .ok { ID := uid, Name := vname, Status := .Inactive,
            CreatedAt := nowC, UpdatedAt := nowU } ∧
    GetSession (NewSession uid nowC nowU (some ⟨snap, db⟩) name).2 uid =
      .ok { ID := uid, Name := vname, Status := .Inactive,
            CreatedAt := nowC, UpdatedAt := nowU } := by
  simp only [uidFresh, Bool.and_eq_true, bne_iff_ne] at huid
  obtain ⟨hneL, huid2⟩ := huid
  cases hdb : assocGet sessionBucketName db with
  | none =>
    refine ⟨?_, ?_⟩ <;>
      simp [NewSession, hval, dbEnsure, hdb, tEnsureSub, dbSet,
        sessionWithNameExists, hval2, dbGet, assocGet_put_self, tSub, tPut,
        tSetSub, GetSession, tGet, asSess, assocGet, assocPut, hneL]
  | some sb =>
    simp only [nameFree, dbGet, hdb] at hfree
    simp only [dbGet, hdb, Option.isNone_iff_eq_none] at huid2
    cases hlk : assocGet lookupBucketName sb with
    | none =>
      have hwhole : NewSession uid nowC nowU (some ⟨snap, db⟩) name =
          (.ok (SessionEntry.mk uid vname .Inactive nowC nowU),
           some ⟨snap,
             dbSet (dbSet db sessionBucketName (assocPut lookupBucketName (.sub []) sb))
               sessionBucketName
               (tSetSub
                 (assocPut uid
                   (.data (.vSess (SessionEntry.mk uid vname .Inactive nowC nowU)))
                   (assocPut lookupBucketName (.sub []) sb))
                 lookupBucketName (assocPut vname (.vId uid) []))⟩) := by
        simp only [NewSession, hval, dbEnsure, hdb, tEnsureSub, hlk, dbSet,
          sessionWithNameExists, hval2, dbGet, assocGet_put_self, tSub,
          assocGet_put_ne _ _ hneL, huid2, tPut, tSetSub, assocGet]
      rw [hwhole]
      refine ⟨rfl, ?_⟩
      simp only [GetSession, dbGet, dbSet, tSetSub, assocGet_put_self, tGet]
      rw [assocGet_put_ne _ _ hneL, assocGet_put_self]
      rfl
    | some el =>
      cases el with
      | data v =>
        simp [hlk] at hfree
      | sub lk =>
        simp only [hlk, Option.isNone_iff_eq_none] at hfree
        have hwhole : NewSession uid nowC nowU (some ⟨snap, db⟩) name =
            (.ok (SessionEntry.mk uid vname .Inactive nowC nowU),
             some ⟨snap,
               dbSet (dbSet db sessionBucketName sb) sessionBucketName
                 (tSetSub
                   (assocPut uid
                     (.data (.vSess (SessionEntry.mk uid vname .Inactive nowC nowU))) sb)
                   lookupBucketName (assocPut vname (.vId uid) lk))⟩) := by
          simp only [NewSession, hval, dbEnsure, hdb, tEnsureSub, hlk, dbSet,
            sessionWithNameExists, hval2, dbGet, assocGet_put_self, tSub, hfree,
            tPut, huid2, tSetSub]
        rw [hwhole]
        refine ⟨rfl, ?_⟩
        simp only [GetSession, dbGet, dbSet, tSetSub, assocGet_put_self, tGet]
        rw [assocGet_put_ne _ _ hneL, assocGet_put_self]
        rfl

/-- Witness for `newSession_roundtrip`: create session `alpha` in a fresh
empty store, with the clock advancing between the two reads, and read it
back. -/
theorem newSession_roundtrip_witness :
    (NewSession "sid-b" 7 8 (some (beginTx [])) "alpha").1 =
      .ok { ID := "sid-b", Name := "alpha", Status := .Inactive,
            CreatedAt := 7, UpdatedAt := 8 } ∧
    GetSession (NewSession "sid-b" 7 8 (some (beginTx [])) "alpha").2 "sid-b" =
      .ok { ID := "sid-b", Name := "alpha", Status := .Inactive,
            CreatedAt := 7, UpdatedAt := 8 } :=
  newSession_roundtrip "sid-b" 7 8 "alpha" "alpha" [] []
    (by decide) (by decide) (by decide) (by decide)

/-- Claim C5: creating a session under a name that is already indexed
fails with `ErrSessionAlreadyExists` and returns the transaction state
unchanged, so the first session's record and its name-index entry are
untouched (the creation wrote nothing). -/
theorem newSession_duplicate_name_rejected (uid : String) (nowC nowU : Nat)
    (name vname sid0 : String) (snap db : DB) (sb : TopBucket) (lk : Leaf)
    (hval : validateName name = .ok vname)
    (hval2 : validateName vname = .ok vname)
    (hsb : dbGet db sessionBucketName = some sb)
    (hlk : assocGet lookupBucketName sb = some (.sub lk))
    (htaken : assocGet vname lk = some (.vId sid0)) :
    NewSession uid nowC nowU (some ⟨snap, db⟩) name =
      (.error .ErrSessionAlreadyExists, some ⟨snap, db⟩) := by
  simp only [dbGet] at hsb
  simp only [NewSession, hval, dbEnsure, hsb, tEnsureSub, hlk, dbSet,
    assocPut_get_self hsb, sessionWithNameExists, hval2, dbGet, tSub, htaken,
    parseId]

/-- Witness for `newSession_duplicate_name_rejected`: a second creation of
`work` in `dbS` is rejected and the transaction state is unchanged. -/
theorem newSession_duplicate_name_rejected_witness :
    NewSession "sid-c" 9 9 (some (beginTx dbS)) "work" =
      (.error .ErrSessionAlreadyExists, some (beginTx dbS)) :=
  newSession_duplicate_name_rejected "sid-c" 9 9 "work" "work" "sid-a" dbS dbS
    ((dbGet dbS sessionBucketName).getD []) [("work", .vId "sid-a")]
    (by decide) (by decide) (by decide) (by decide) (by decide)

/-- Claim C6 counterexample: with session `sid-a` existing but no WINDOW
bucket ever created, `NewPane` under a nonexistent window fails with the
namespace error `ErrWindowBucketNotFound`, which is neither the
session-not-found nor the window-not-found error named by the claim (the
state is still left unchanged). -/
theorem newPane_namespaceMissing_counterexample :
    (NewPane "p" 3 3 (some (beginTx dbS)) "sid-a" "w-miss" 1 1 0 0 "/").1 =
      .error .ErrWindowBucketNotFound ∧
    (NewPane "p" 3 3 (some (beginTx dbS)) "sid-a" "w-miss" 1 1 0 0 "/").2 =
      some (beginTx dbS) ∧
    Err.ErrWindowBucketNotFound ≠ Err.ErrSessionNotFound ∧
    Err.ErrWindowBucketNotFound ≠ Err.ErrWindowNotFound := by
  decide

/-- Claim C6 (amended): whenever the window lookup fails — session absent,
window absent, or a required namespace bucket missing — `NewPane` fails
with exactly that lookup error and performs no writes. -/
theorem newPane_windowLookup_error_propagates (puid : String) (nowC nowU : Nat)
    (snap db : DB) (sid wid : String) (w h x y : Int) (cwd : String) (e : Err)
    (hw : GetWindow (some ⟨snap, db⟩) sid wid = .error e) :
    NewPane puid nowC nowU (some ⟨snap, db⟩) sid wid w h x y cwd =
      (.error e, some ⟨snap, db⟩) := by
  cases hgs : GetSession (some ⟨snap, db⟩) sid with
  | error e0 =>
    simp only [GetWindow, hgs, Except.error.injEq] at hw
    subst hw
    simp only [NewPane, hgs]
  | ok session =>
    simp only [NewPane, hgs, hw]

/-- Witness for `newPane_windowLookup_error_propagates` at the state of
the C6 counterexample. -/
theorem newPane_windowLookup_error_propagates_witness :
    NewPane "p" 3 3 (some (beginTx dbS)) "sid-a" "w-miss" 1 1 0 0 "/" =
      (.error .ErrWindowBucketNotFound, some (beginTx dbS)) :=
  newPane_windowLookup_error_propagates "p" 3 3 dbS dbS "sid-a" "w-miss" 1 1 0 0 "/"
    .ErrWindowBucketNotFound (by decide)

/-- Claim C9 counterexample: window `wid-a` of `dbSW` exists and has never
had a pane, but since no pane was ever created anywhere the top-level PANE
bucket is absent too, and `GetPanes`/`GetPane` fail with
`ErrPaneBucketNotFound`, not with the claimed
`ErrPaneWindowBucketNotFound`. -/
theorem getPanes_paneBucketMissing_counterexample :
    GetPanes (some (beginTx dbSW)) "sid-a" "wid-a" = .error .ErrPaneBucketNotFound ∧
    GetPane (some (beginTx dbSW)) "sid-a" "wid-a" "pid-1" = .error .ErrPaneBucketNotFound ∧
    Err.ErrPaneBucketNotFound ≠ Err.ErrPaneWindowBucketNotFound := by
  decide

/-- Claim C9 (amended): for a window that exists but has no pane bucket:
when the top-level PANE bucket is absent, `GetPanes` and `GetPane` fail
with `ErrPaneBucketNotFound`; when it exists but holds no bucket for the
window, they fail with `ErrPaneWindowBucketNotFound`.  Listing the panes
of such a window is always an error, never an empty list and never
`ErrPaneNotFound`. -/
theorem panes_namespaceMissing_errors (snap db : DB) (sid wid : String)
    (wrec : WindowEntry)
    (hw : GetWindow (some ⟨snap, db⟩) sid wid = .ok wrec) :
    (dbGet db paneBucketName = none →
      GetPanes (some ⟨snap, db⟩) sid wid = .error .ErrPaneBucketNotFound ∧
      ∀ pid, GetPane (some ⟨snap, db⟩) sid wid pid = .error .ErrPaneBucketNotFound) ∧
    (∀ pb, dbGet db paneBucketName = some pb → tSub pb wrec.ID = none →
      GetPanes (some ⟨snap, db⟩) sid wid = .error .ErrPaneWindowBucketNotFound ∧
      ∀ pid, GetPane (some ⟨snap, db⟩) sid wid pid = .error .ErrPaneWindowBucketNotFound) := by
  constructor
  · intro hpb
    constructor
    · simp only [GetPanes, hw, hpb]
    · intro pid
      simp only [GetPane, hw, hpb]
  · intro pb hpb hsub
    constructor
    · simp only [GetPanes, hw, hpb, hsub]
    · intro pid
      simp only [GetPane, hw, hpb, hsub]

/-- A store like `dbSW` in which some other window has a pane bucket, so
the top-level PANE bucket exists while window `wid-a` still has none. -/
def dbPaneOther : DB := dbSet dbSW paneBucketName [("other-window", Elem.sub [])]

/-- Witness for `panes_namespaceMissing_errors`: with the PANE bucket
present but holding no bucket for `wid-a`, listing fails with
`ErrPaneWindowBucketNotFound`. -/
theorem panes_namespaceMissing_errors_witness :
    GetPanes (some (beginTx dbPaneOther)) "sid-a" "wid-a" =
      .error .ErrPaneWindowBucketNotFound ∧
    GetPane (some (beginTx dbPaneOther)) "sid-a" "wid-a" "pid-1" =
      .error .ErrPaneWindowBucketNotFound :=
  ((panes_namespaceMissing_errors dbPaneOther dbPaneOther "sid-a" "wid-a"
      { ID := "wid-a", Name := "Window-abcdefgh", Index := 0, SessionID := "sid-a",
        CreatedAt := 1, UpdatedAt := 1 } (by decide)).2
    [("other-window", Elem.sub [])] (by decide) (by decide)).imp id (fun hall => hall "pid-1")

/-- Claim C8: each pane update re-fetches the record and overwrites only
its targeted fields plus the update timestamp — `UpdatePaneSize` width and
height, `UpdatePanePosition` x and y, `UpdatePaneCwd` the working
directory — leaving the identifier, owner identifiers, creation timestamp
and the untargeted fields unchanged; and the concrete sequence create
80x24 at (0,0) in `/tmp`, resize to 120x40, move to (5,6), change
directory to `/home` reads back exactly those values. -/
theorem pane_updates_frame (snap db : DB) (sid wid pid : String)
    (wrec : WindowEntry) (pb : TopBucket) (leaf : Leaf) (p : PaneEntry)
    (hw : GetWindow (some ⟨snap, db⟩) sid wid = .ok wrec)
    (hrid : wrec.ID = wid)
    (hpb : dbGet db paneBucketName = some pb)
    (hsub : assocGet wid pb = some (.sub leaf))
    (hp : assocGet pid leaf = some (.vPane p)) :
    (∀ wd ht now, (UpdatePaneSize now (some ⟨snap, db⟩) sid wid pid wd ht).1 = .ok () ∧
      GetPane (UpdatePaneSize now (some ⟨snap, db⟩) sid wid pid wd ht).2 sid wid pid =
        .ok { p with Width := wd, Height := ht, UpdatedAt := now }) ∧
    (∀ x y now, (UpdatePanePosition now (some ⟨snap, db⟩) sid wid pid x y).1 = .ok () ∧
      GetPane (UpdatePanePosition now (some ⟨snap, db⟩) sid wid pid x y).2 sid wid pid =
        .ok { p with X := x, Y := y, UpdatedAt := now }) ∧
    (∀ cwd now, (UpdatePaneCwd now (some ⟨snap, db⟩) sid wid pid cwd).1 = .ok () ∧
      GetPane (UpdatePaneCwd now (some ⟨snap, db⟩) sid wid pid cwd).2 sid wid pid =
        .ok { p with Cwd := cwd, UpdatedAt := now }) ∧
    GetPane (UpdatePaneCwd 5 (UpdatePanePosition 4
        (UpdatePaneSize 3 (some (beginTx dbP3)) "sid-a" "wid-a" "pid-1" 120 40).2
        "sid-a" "wid-a" "pid-1" 5 6).2 "sid-a" "wid-a" "pid-1" "/home").2
      "sid-a" "wid-a" "pid-1" =
      .ok { ID := "pid-1", SsessionID := "sid-a", WindowID := "wid-a",
            Width := 120, Height := 40, X := 5, Y := 6, Cwd := "/home",
            CreatedAt := 2, UpdatedAt := 5 } := by
  have hsne : sessionBucketName ≠ paneBucketName := by decide
  have hwne : windowBucketName ≠ paneBucketName := by decide
  have hpb' : assocGet paneBucketName db = some pb := hpb
  have hgp : GetPane (some ⟨snap, db⟩) sid wid pid = .ok p := by
    simp only [GetPane, hw, hrid, hpb, tSub, hsub, hp, asPane]
  have hgw' : ∀ pb2 : TopBucket,
      GetWindow (some ⟨snap, assocPut paneBucketName pb2 db⟩) sid wid = .ok wrec := by
    intro pb2
    exact (@GetWindow_congr snap snap (assocPut paneBucketName pb2 db) db
      (by simp only [dbGet, assocGet_put_ne _ _ hsne])
      (by simp only [dbGet, assocGet_put_ne _ _ hwne]) sid wid).trans hw
  refine ⟨?_, ?_, ?_, by decide⟩
  · intro wd ht now
    have hupd : UpdatePaneSize now (some ⟨snap, db⟩) sid wid pid wd ht =
        (.ok (), some ⟨snap, dbSet db paneBucketName (tSetSub pb wid
          (assocPut pid (.vPane { p with Width := wd, Height := ht, UpdatedAt := now })
            leaf))⟩) := by
      simp only [UpdatePaneSize, hgp, dbEnsure, hpb', tEnsureSub, hsub, tSetSub, dbSet]
    rw [hupd]
    refine ⟨rfl, ?_⟩
    simp only [GetPane, hgw', dbGet, dbSet, assocGet_put_self, tSub, tSetSub, hrid, asPane]
  · intro x y now
    have hupd : UpdatePanePosition now (some ⟨snap, db⟩) sid wid pid x y =
        (.ok (), some ⟨snap, dbSet db paneBucketName (tSetSub pb wid
          (assocPut pid (.vPane { p with X := x, Y := y, UpdatedAt := now })
            leaf))⟩) := by
      simp only [UpdatePanePosition, hgp, dbEnsure, hpb', tEnsureSub, hsub, tSetSub, dbSet]
    rw [hupd]
    refine ⟨rfl, ?_⟩
    simp only [GetPane, hgw', dbGet, dbSet, assocGet_put_self, tSub, tSetSub, hrid, asPane]
  · intro cwd now
    have hupd : UpdatePaneCwd now (some ⟨snap, db⟩) sid wid pid cwd =
        (.ok (), some ⟨snap, dbSet db paneBucketName (tSetSub pb wid
          (assocPut pid (.vPane { p with Cwd := cwd, UpdatedAt := now })
            leaf))⟩) := by
      simp only [UpdatePaneCwd, hgp, dbEnsure, hpb', tEnsureSub, hsub, tSetSub, dbSet]
    rw [hupd]
    refine ⟨rfl, ?_⟩
    simp only [GetPane, hgw', dbGet, dbSet, assocGet_put_self, tSub, tSetSub, hrid, asPane]

/-- Witness for `pane_updates_frame`: resizing pane `pid-1` of `dbP3` to
100x50 changes exactly width, height and the update timestamp. -/
theorem pane_updates_frame_witness :
    (UpdatePaneSize 9 (some (beginTx dbP3)) "sid-a" "wid-a" "pid-1" 100 50).1 = .ok () ∧
    GetPane (UpdatePaneSize 9 (some (beginTx dbP3)) "sid-a" "wid-a" "pid-1" 100 50).2
        "sid-a" "wid-a" "pid-1" =
      .ok { ID := "pid-1", SsessionID := "sid-a", WindowID := "wid-a",
            Width := 100, Height := 50, X := 0, Y := 0, Cwd := "/tmp",
            CreatedAt := 2, UpdatedAt := 9 } :=
  (pane_updates_frame dbP3 dbP3 "sid-a" "wid-a" "pid-1"
    { ID := "wid-a", Name := "Window-abcdefgh", Index := 0, SessionID := "sid-a",
      CreatedAt := 1, UpdatedAt := 1 }
    ((dbGet dbP3 paneBucketName).getD [])
    ((tSub ((dbGet dbP3 paneBucketName).getD []) "wid-a").getD [])
    { ID := "pid-1", SsessionID := "sid-a", WindowID := "wid-a",
      Width := 80, Height := 24, X := 0, Y := 0, Cwd := "/tmp",
      CreatedAt := 2, UpdatedAt := 2 }
    (by decide) (by decide) (by decide) (by decide) (by decide)).1 100 50 9

end Ira
